import Mathlib

/-!
Verification of the heat-loss calculation engine.

Shallow embedding of the heat loss service of this repository
(class HeatLossService, src/unnamed/part_002): input validation,
room and building heat-loss calculation, and radiator (emitter)
sizing.  JavaScript numbers are idealised as real numbers, and the
source rounding Math.round x is floor (x + 1/2), which is exactly
the half-up-towards-positive-infinity rounding of Math.round.  The
wall-clock field calculationTimeMs of the source result is
observability only (it is not part of the physics and is explicitly
nondeterministic), so it is not part of the embedded result record.
-/

noncomputable section

namespace HeatLossService

/-- Room record (source: interface Room, src/unnamed/part_002 lines 16-26). -/
structure Room where
  id : String
  name : String
  area : ℝ
  volume : ℝ
  ceilingHeight : ℝ
  exteriorWalls : ℝ
  windowArea : ℝ
  doorCount : ℝ
  targetTemp : ℝ

/-- Shared thermal parameters (source: interface CalculationParams, lines 28-36). -/
structure CalculationParams where
  outdoorTemp : ℝ
  indoorTemp : ℝ
  wallUValue : ℝ
  windowUValue : ℝ
  floorUValue : ℝ
  ceilingUValue : ℝ
  airChangeRate : ℝ

/-- Result of one room computation (source: interface CalculationResult,
lines 38-46, without the wall-clock calculationTimeMs field). -/
structure CalculationResult where
  transmissionLoss : ℝ
  ventilationLoss : ℝ
  totalHeatLoss : ℝ
  designHeatLoad : ℝ
  safetyFactor : ℝ
  method : String

/-- Radiator sizing result (source: return type of calculateRadiatorSize,
lines 237-241). -/
structure RadiatorSizing where
  requiredOutput : ℝ
  meanWaterTemp : ℝ
  correction : ℝ

/-- Per-room entry of the building aggregate (source: the
roomId/result pairs built in calculateBuildingHeatLoss, lines 274-278). -/
structure BuildingRoomEntry where
  roomId : String
  result : CalculationResult

/-- Building aggregate result (source: return type of
calculateBuildingHeatLoss, lines 269-273). -/
structure BuildingResult where
  rooms : List BuildingRoomEntry
  totalHeatLoss : ℝ
  totalDesignLoad : ℝ

/-- Source: CONSTANTS.SAFETY_FACTOR (line 55). -/
def SAFETY_FACTOR : ℝ := 1.15

/-- Source: CONSTANTS.AIR_DENSITY (line 53). -/
def AIR_DENSITY : ℝ := 1.2

/-- Source: CONSTANTS.SPECIFIC_HEAT_AIR (line 54). -/
def SPECIFIC_HEAT_AIR : ℝ := 1005

/-- Source round (lines 352-355):
Math.round(value * 10 ^ precision) / 10 ^ precision, with
Math.round x = floor (x + 1/2). -/
def round (value : ℝ) (precision : ℕ) : ℝ :=
  ((⌊value * (10 : ℝ) ^ precision + 1 / 2⌋ : ℤ) : ℝ) / (10 : ℝ) ^ precision

/-- Source validateInputs (lines 300-347): the checks run in source order
and the first violated one raises; a thrown Error is translated to
Except.error carrying the message. -/
def validateInputs (room : Room) (params : CalculationParams) : Except String Unit :=
  if room.area ≤ 0 then Except.error "Room area must be greater than 0"
  else if room.volume ≤ 0 then Except.error "Room volume must be greater than 0"
  else if room.ceilingHeight ≤ 0 then Except.error "Ceiling height must be greater than 0"
  else if params.outdoorTemp < -20 then Except.error "Outdoor temperature too low (min: -20°C)"
  else if params.outdoorTemp > 15 then Except.error "Outdoor temperature too high (max: 15°C)"
  else if params.indoorTemp < 15 then Except.error "Indoor temperature too low (min: 15°C)"
  else if params.indoorTemp > 25 then Except.error "Indoor temperature too high (max: 25°C)"
  else if params.indoorTemp ≤ params.outdoorTemp then
    Except.error "Indoor temperature must be greater than outdoor temperature"
  else if params.wallUValue ≤ 0 ∨ params.wallUValue > 10 then
    Except.error "Invalid wall U-value (must be 0-10 W/m²K)"
  else if params.windowUValue ≤ 0 ∨ params.windowUValue > 10 then
    Except.error "Invalid window U-value (must be 0-10 W/m²K)"
  else if params.floorUValue ≤ 0 ∨ params.floorUValue > 10 then
    Except.error "Invalid floor U-value (must be 0-10 W/m²K)"
  else if params.ceilingUValue ≤ 0 ∨ params.ceilingUValue > 10 then
    Except.error "Invalid ceiling U-value (must be 0-10 W/m²K)"
  else if params.airChangeRate < 0 ∨ params.airChangeRate > 10 then
    Except.error "Invalid air change rate (must be 0-10 ACH)"
  else Except.ok ()

/-- Source calculateTransmissionLoss (lines 174-201). -/
def calculateTransmissionLoss (room : Room) (params : CalculationParams)
    (tempDiff : ℝ) : ℝ :=
  let floorArea := room.area
  let ceilingArea := room.area
  let roomPerimeter := 4 * Real.sqrt floorArea
  let totalWallArea := roomPerimeter * room.ceilingHeight
  let wallArea := totalWallArea - room.windowArea
  let exteriorWallFactor := room.exteriorWalls / 4
  let effectiveWallArea := wallArea * exteriorWallFactor
  let effectiveWindowArea := room.windowArea * exteriorWallFactor
  let wallLoss := params.wallUValue * effectiveWallArea * tempDiff
  let windowLoss := params.windowUValue * effectiveWindowArea * tempDiff
  let floorLoss := params.floorUValue * floorArea * tempDiff * 0.5
  let ceilingLoss := params.ceilingUValue * ceilingArea * tempDiff
  wallLoss + windowLoss + floorLoss + ceilingLoss

/-- Source calculateVentilationLoss (lines 206-227). -/
def calculateVentilationLoss (room : Room) (params : CalculationParams)
    (tempDiff : ℝ) : ℝ :=
  let volumeFlowRate := room.volume * params.airChangeRate
  let volumeFlowRatePerSecond := volumeFlowRate / 3600
  let massFlowRate := volumeFlowRatePerSecond * AIR_DENSITY
  massFlowRate * SPECIFIC_HEAT_AIR * tempDiff

/-- The success path of calculateRoomHeatLoss (lines 118-161): the
result record built after validation has passed. -/
def computeResult (room : Room) (params : CalculationParams) : CalculationResult :=
  let tempDiff := params.indoorTemp - params.outdoorTemp
  let transmissionLoss := calculateTransmissionLoss room params tempDiff
  let ventilationLoss := calculateVentilationLoss room params tempDiff
  let totalHeatLoss := transmissionLoss + ventilationLoss
  let designHeatLoad := totalHeatLoss * SAFETY_FACTOR
  { transmissionLoss := round transmissionLoss 2
    ventilationLoss := round ventilationLoss 2
    totalHeatLoss := round totalHeatLoss 2
    designHeatLoad := round designHeatLoad 2
    safetyFactor := SAFETY_FACTOR
    method := "EN_12831" }

/-- Source calculateRoomHeatLoss (lines 108-169): validate, then compute;
a validation throw rejects the whole call (the catch block rethrows). -/
def calculateRoomHeatLoss (room : Room) (params : CalculationParams) :
    Except String CalculationResult :=
  match validateInputs room params with
  | Except.error e => Except.error e
  | Except.ok _ => Except.ok (computeResult room params)

/-- Source calculateRadiatorSize (lines 232-261).  The source applies no
validation to its arguments; the defaults 75/65/20 are supplied by
callers in the embedding. -/
def calculateRadiatorSize (designHeatLoad flowTemp returnTemp roomTemp : ℝ) :
    RadiatorSizing :=
  let meanWaterTemp := (flowTemp + returnTemp) / 2
  let tempDiff := meanWaterTemp - roomTemp
  let standardTempDiff : ℝ := 50
  let correction := (tempDiff / standardTempDiff) ^ (1.3 : ℝ)
  let requiredOutput := designHeatLoad / correction
  { requiredOutput := round requiredOutput 2
    meanWaterTemp := round meanWaterTemp 2
    correction := round correction 3 }

/-- The Promise.all(rooms.map ...) stage of calculateBuildingHeatLoss
(lines 274-278): every room is evaluated with the shared params and the
aggregate rejects with the first (in array order) per-room rejection. -/
def mapResults (rooms : List Room) (params : CalculationParams) :
    Except String (List BuildingRoomEntry) :=
  match rooms with
  | [] => Except.ok []
  | room :: rest =>
    match calculateRoomHeatLoss room params with
    | Except.error e => Except.error e
    | Except.ok result =>
      match mapResults rest params with
      | Except.error e => Except.error e
      | Except.ok results => Except.ok ({ roomId := room.id, result := result } :: results)

/-- Source calculateBuildingHeatLoss (lines 266-295): per-room results,
then totals via reduce over the rounded per-room fields, each total
rounded again. -/
def calculateBuildingHeatLoss (rooms : List Room) (params : CalculationParams) :
    Except String BuildingResult :=
  match mapResults rooms params with
  | Except.error e => Except.error e
  | Except.ok results =>
    Except.ok
      { rooms := results
        totalHeatLoss :=
          round (results.foldl (fun sum r => sum + r.result.totalHeatLoss) 0) 2
        totalDesignLoad :=
          round (results.foldl (fun sum r => sum + r.result.designHeatLoad) 0) 2 }

/-- The ten validation rules as the spec states them (spec section 4.1,
validation rules 1-10).  This is the spec-side predicate; the theorems
compare it with the source-side validateInputs. -/
def ValidInputs (room : Room) (params : CalculationParams) : Prop :=
  0 < room.area ∧ 0 < room.volume ∧ 0 < room.ceilingHeight ∧
  -20 ≤ params.outdoorTemp ∧ params.outdoorTemp ≤ 15 ∧
  15 ≤ params.indoorTemp ∧ params.indoorTemp ≤ 25 ∧
  params.outdoorTemp < params.indoorTemp ∧
  (0 < params.wallUValue ∧ params.wallUValue ≤ 10) ∧
  (0 < params.windowUValue ∧ params.windowUValue ≤ 10) ∧
  (0 < params.floorUValue ∧ params.floorUValue ≤ 10) ∧
  (0 < params.ceilingUValue ∧ params.ceilingUValue ≤ 10) ∧
  (0 ≤ params.airChangeRate ∧ params.airChangeRate ≤ 10)

/-- The unrounded total heat loss of one room computation
(transmissionLoss + ventilationLoss before rounding, line 136). -/
def unroundedTotal (room : Room) (params : CalculationParams) : ℝ :=
  calculateTransmissionLoss room params (params.indoorTemp - params.outdoorTemp) +
    calculateVentilationLoss room params (params.indoorTemp - params.outdoorTemp)

/-- The transmission-loss formula exactly as the spec states it
(spec section 4.1, transmission loss algorithm steps 1-8), for
comparison with calculateTransmissionLoss. -/
def specTransmissionLoss (room : Room) (params : CalculationParams) : ℝ :=
  params.wallUValue * (4 * Real.sqrt room.area * room.ceilingHeight - room.windowArea) *
      (room.exteriorWalls / 4) * (params.indoorTemp - params.outdoorTemp) +
    params.windowUValue * room.windowArea * (room.exteriorWalls / 4) *
      (params.indoorTemp - params.outdoorTemp) +
    params.floorUValue * room.area * (params.indoorTemp - params.outdoorTemp) * 0.5 +
    params.ceilingUValue * room.area * (params.indoorTemp - params.outdoorTemp)

/-- The ventilation-loss formula exactly as the spec states it
(spec section 4.1, ventilation loss algorithm steps 1-4), for
comparison with calculateVentilationLoss. -/
def specVentilationLoss (room : Room) (params : CalculationParams) : ℝ :=
  room.volume * params.airChangeRate / 3600 * 1.2 * 1005 *
    (params.indoorTemp - params.outdoorTemp)

/-- Sample parameter set (the mock params of the test suite). -/
def sampleParams : CalculationParams := ⟨-3, 20, 0.3, 1.4, 0.25, 0.16, 0.5⟩

/-- Sample room with a perfect-square area. -/
def roomA : Room := ⟨"a", "A", 16, 50, 2.5, 2, 4, 1, 20⟩

/-- Same numeric geometry as roomA but different id, name, doorCount and
targetTemp. -/
def roomB : Room := ⟨"b", "B", 16, 50, 2.5, 2, 4, 9, 35⟩

/-- Second valid sample room. -/
def roomC : Room := ⟨"c", "C", 25, 40, 2.5, 1, 2, 1, 18⟩

/-- Room violating the first validation rule. -/
def zeroAreaRoom : Room := ⟨"z", "Z", 0, 50, 2.5, 2, 4, 1, 20⟩

/-- Valid room with no exterior walls and airChangeRate 0 in the
accompanying params: both effective fabric areas are zero. -/
def monoRoom : Room := ⟨"m", "M", 16, 50, 2.5, 0, 2, 1, 20⟩

/-- Valid params with airChangeRate 0 and wall U-value 1. -/
def monoParams1 : CalculationParams := ⟨-3, 20, 1, 1.4, 0.25, 0.16, 0⟩

/-- Same as monoParams1 with wall U-value raised to 2. -/
def monoParams2 : CalculationParams := ⟨-3, 20, 2, 1.4, 0.25, 0.16, 0⟩

/-- Valid room tuned so that the unrounded total heat loss is 31/230 W. -/
def edgeRoom : Room := ⟨"e", "E", 16, 1, 1, 0, 0, 0, 20⟩

/-- Valid params tuned so that the unrounded total heat loss of edgeRoom
is 31/230 W (whose rounding interacts worst with the 1.15 factor). -/
def edgeParams : CalculationParams := ⟨15, 16, 1, 1, 31 / 3680, 31 / 7360, 0⟩

/-- Valid params tuned so that the unrounded total heat loss of edgeRoom
is 23/500 W = 0.046 W: then both the total and the design load round to
0.05, so the rounded fields are equal although the total is positive. -/
def tinyParams : CalculationParams := ⟨15, 16, 1, 1, 23 / 8000, 23 / 16000, 0⟩

/-! Helper lemmas about the embedded operations. -/

lemma ite_err_ok (c : Prop) [Decidable c] (e : String) (rest : Except String Unit) :
    ((if c then Except.error e else rest) = Except.ok ()) ↔ (¬ c ∧ rest = Except.ok ()) := by
  by_cases h : c <;> simp [h]

lemma validateInputs_ok_iff (room : Room) (params : CalculationParams) :
    validateInputs room params = Except.ok () ↔ ValidInputs room params := by
  unfold validateInputs ValidInputs
  simp only [ite_err_ok]
  push_neg
  tauto

lemma roomHeatLoss_ok (room : Room) (params : CalculationParams)
    (h : ValidInputs room params) :
    calculateRoomHeatLoss room params = Except.ok (computeResult room params) := by
  unfold calculateRoomHeatLoss
  rw [(validateInputs_ok_iff room params).mpr h]

lemma roomHeatLoss_ok_iff (room : Room) (params : CalculationParams) :
    (∃ result, calculateRoomHeatLoss room params = Except.ok result) ↔
      ValidInputs room params := by
  constructor
  · rintro ⟨result, hres⟩
    unfold calculateRoomHeatLoss at hres
    cases heq : validateInputs room params with
    | error e => rw [heq] at hres; exact absurd hres (by simp)
    | ok u => cases u; exact (validateInputs_ok_iff room params).mp heq
  · intro h
    exact ⟨computeResult room params, roomHeatLoss_ok room params h⟩

lemma roomHeatLoss_error (room : Room) (params : CalculationParams)
    (h : ¬ ValidInputs room params) :
    ∃ msg, calculateRoomHeatLoss room params = Except.error msg := by
  cases heq : validateInputs room params with
  | error e => exact ⟨e, by unfold calculateRoomHeatLoss; rw [heq]⟩
  | ok u => cases u; exact absurd ((validateInputs_ok_iff room params).mp heq) h

lemma round_eq_of (x : ℝ) (p : ℕ) (z : ℤ)
    (h1 : (z : ℝ) ≤ x * (10 : ℝ) ^ p + 1 / 2)
    (h2 : x * (10 : ℝ) ^ p + 1 / 2 < (z : ℝ) + 1) :
    round x p = (z : ℝ) / (10 : ℝ) ^ p := by
  unfold round
  rw [Int.floor_eq_iff.mpr ⟨h1, h2⟩]

lemma abs_round_sub (x : ℝ) (p : ℕ) :
    |round x p - x| ≤ 1 / (2 * (10 : ℝ) ^ p) := by
  have hm : (0 : ℝ) < (10 : ℝ) ^ p := pow_pos (by norm_num) p
  have h1 : ((⌊x * (10 : ℝ) ^ p + 1 / 2⌋ : ℤ) : ℝ) ≤ x * (10 : ℝ) ^ p + 1 / 2 :=
    Int.floor_le _
  have h2 : x * (10 : ℝ) ^ p + 1 / 2 < ((⌊x * (10 : ℝ) ^ p + 1 / 2⌋ : ℤ) : ℝ) + 1 :=
    Int.lt_floor_add_one _
  have key : round x p - x =
      (((⌊x * (10 : ℝ) ^ p + 1 / 2⌋ : ℤ) : ℝ) - (x * (10 : ℝ) ^ p + 1 / 2) + 1 / 2) /
        (10 : ℝ) ^ p := by
    unfold round
    field_simp
    ring
  have hnum : |((⌊x * (10 : ℝ) ^ p + 1 / 2⌋ : ℤ) : ℝ) - (x * (10 : ℝ) ^ p + 1 / 2) + 1 / 2| ≤
      1 / 2 := by
    rw [abs_le]
    constructor <;> linarith
  rw [key, abs_div, abs_of_pos hm, div_le_div_iff₀ hm (by positivity)]
  nlinarith [hnum, hm]

lemma round_le_round (x z : ℝ) (p : ℕ) (h : x ≤ z) : round x p ≤ round z p := by
  have hm : (0 : ℝ) < (10 : ℝ) ^ p := pow_pos (by norm_num) p
  have hf : (⌊x * (10 : ℝ) ^ p + 1 / 2⌋ : ℤ) ≤ ⌊z * (10 : ℝ) ^ p + 1 / 2⌋ :=
    Int.floor_mono (by nlinarith)
  unfold round
  exact (div_le_div_iff_of_pos_right hm).mpr (by exact_mod_cast hf)

lemma round_zero (p : ℕ) : round 0 p = 0 := by
  have h := round_eq_of 0 p 0 (by norm_num) (by norm_num)
  simpa using h

lemma mapResults_error (rooms : List Room) (params : CalculationParams)
    (h : ∃ room ∈ rooms, ¬ ValidInputs room params) :
    ∃ msg, mapResults rooms params = Except.error msg ∧
      ∃ room ∈ rooms, calculateRoomHeatLoss room params = Except.error msg := by
  induction rooms with
  | nil =>
    obtain ⟨r, hr, _⟩ := h
    exact absurd hr (List.not_mem_nil r)
  | cons r rs ih =>
    cases heq : calculateRoomHeatLoss r params with
    | error e =>
      exact ⟨e, by unfold mapResults; rw [heq], ⟨r, List.mem_cons_self r rs, heq⟩⟩
    | ok result =>
      have hrValid : ValidInputs r params :=
        (roomHeatLoss_ok_iff r params).mp ⟨result, heq⟩
      obtain ⟨room0, hmem, hinv⟩ := h
      have hmem0 : room0 ∈ rs := by
        rcases List.mem_cons.mp hmem with h1 | h1
        · exact absurd (by rw [h1]; exact hrValid) hinv
        · exact h1
      obtain ⟨msg, hmr, room1, hmem1, herr1⟩ := ih ⟨room0, hmem0, hinv⟩
      refine ⟨msg, ?_, room1, List.mem_cons_of_mem r hmem1, herr1⟩
      unfold mapResults
      rw [heq, hmr]

lemma mapResults_ok (rooms : List Room) (params : CalculationParams)
    (h : ∀ room ∈ rooms, ValidInputs room params) :
    mapResults rooms params = Except.ok
      (rooms.map fun room => { roomId := room.id, result := computeResult room params }) := by
  induction rooms with
  | nil => rfl
  | cons r rs ih =>
    have hr := roomHeatLoss_ok r params (h r (List.mem_cons_self r rs))
    have hrs := ih (fun room hm => h room (List.mem_cons_of_mem r hm))
    unfold mapResults
    rw [hr, hrs, List.map_cons]

lemma foldl_add_map (f : BuildingRoomEntry → ℝ) (l : List BuildingRoomEntry) (a : ℝ) :
    l.foldl (fun sum r => sum + f r) a = a + (l.map f).sum := by
  induction l generalizing a with
  | nil => simp
  | cons x xs ih =>
    rw [List.foldl_cons, List.map_cons, List.sum_cons, ih]
    ring

lemma building_ok (rooms : List Room) (params : CalculationParams)
    (h : ∀ room ∈ rooms, ValidInputs room params) :
    calculateBuildingHeatLoss rooms params = Except.ok
      { rooms := rooms.map fun room => { roomId := room.id, result := computeResult room params }
        totalHeatLoss :=
          round ((rooms.map fun room => (computeResult room params).totalHeatLoss).sum) 2
        totalDesignLoad :=
          round ((rooms.map fun room => (computeResult room params).designHeatLoad).sum) 2 } := by
  unfold calculateBuildingHeatLoss
  rw [mapResults_ok rooms params h]
  dsimp only
  have h1 : ((rooms.map fun room =>
        ({ roomId := room.id, result := computeResult room params } : BuildingRoomEntry)).foldl
          (fun sum r => sum + r.result.totalHeatLoss) 0) =
      (rooms.map fun room => (computeResult room params).totalHeatLoss).sum := by
    rw [foldl_add_map, List.map_map, zero_add]
    rfl
  have h2 : ((rooms.map fun room =>
        ({ roomId := room.id, result := computeResult room params } : BuildingRoomEntry)).foldl
          (fun sum r => sum + r.result.designHeatLoad) 0) =
      (rooms.map fun room => (computeResult room params).designHeatLoad).sum := by
    rw [foldl_add_map, List.map_map, zero_add]
    rfl
  rw [h1, h2]

/-! Claim theorems. -/

/-- C1 (code behaviour at the failing input): for flow = return = roomTemp = 20
the temperature-difference term meanWaterTemp - roomTemp is not positive, yet
calculateRadiatorSize does not reject: it returns a sizing whose correction
factor is 0, so requiredOutput is designHeatLoad divided by zero (Infinity in
the source IEEE arithmetic; 0 in the real-valued idealisation, where x / 0 = 0).
No guard and no Invalid Input rejection exists in the source. -/
theorem claim_c1_no_guard_division_by_zero :
    ((20 + 20 : ℝ) / 2 - 20 ≤ 0) ∧
    calculateRadiatorSize 2000 20 20 20 =
      { requiredOutput := 0, meanWaterTemp := 20, correction := 0 } := by
  have hz : (((20 : ℝ) - 20) / 50) = 0 := by norm_num
  have hpow : (((20 : ℝ) - 20) / 50) ^ (1.3 : ℝ) = 0 := by
    rw [hz]
    exact Real.zero_rpow (by norm_num)
  have h20 : round (20 : ℝ) 2 = 20 := by
    rw [round_eq_of (20 : ℝ) 2 2000 (by norm_num) (by norm_num)]
    norm_num
  have hmean : (((20 : ℝ) + 20) / 2) = 20 := by norm_num
  refine ⟨by norm_num, ?_⟩
  simp only [calculateRadiatorSize, hpow, hmean, div_zero, round_zero, h20,
    RadiatorSizing.mk.injEq]

/-- C7: calculateRadiatorSize returns the rounded mean water temperature,
the correction factor rounded to 3 decimals, and designHeatLoad divided by
the unrounded correction rounded to 2 decimals; at the default operating
point 75/65/20 it returns meanWaterTemp 70, correction 1, and
requiredOutput the rounded designHeatLoad. -/
theorem claim_c7_radiator_formula (designHeatLoad flowTemp returnTemp roomTemp : ℝ)
    (h : 0 < (flowTemp + returnTemp) / 2 - roomTemp) :
    calculateRadiatorSize designHeatLoad flowTemp returnTemp roomTemp =
      { requiredOutput :=
          round (designHeatLoad /
            ((((flowTemp + returnTemp) / 2 - roomTemp) / 50) ^ (1.3 : ℝ))) 2
        meanWaterTemp := round ((flowTemp + returnTemp) / 2) 2
        correction := round ((((flowTemp + returnTemp) / 2 - roomTemp) / 50) ^ (1.3 : ℝ)) 3 } ∧
    calculateRadiatorSize designHeatLoad 75 65 20 =
      { requiredOutput := round designHeatLoad 2
        meanWaterTemp := 70
        correction := 1 } := by
  constructor
  · rfl
  · have e1 : ((70 : ℝ) - 20) / 50 = 1 := by norm_num
    have hone : (((70 : ℝ) - 20) / 50) ^ (1.3 : ℝ) = 1 := by
      rw [e1, Real.one_rpow]
    have e2 : ((75 : ℝ) + 65) / 2 = 70 := by norm_num
    have h70 : round (70 : ℝ) 2 = 70 := by
      rw [round_eq_of (70 : ℝ) 2 7000 (by norm_num) (by norm_num)]
      norm_num
    have h13 : round (1 : ℝ) 3 = 1 := by
      rw [round_eq_of (1 : ℝ) 3 1000 (by norm_num) (by norm_num)]
      norm_num
    simp only [calculateRadiatorSize, hone, e2, div_one, h70, h13,
      RadiatorSizing.mk.injEq]

/-- Witness for C7 at designHeatLoad 2000 and the default temperatures. -/
theorem claim_c7_radiator_formula_witness :
    (0 < ((75 : ℝ) + 65) / 2 - 20) ∧
    calculateRadiatorSize 2000 75 65 20 =
      { requiredOutput := round (2000 : ℝ) 2
        meanWaterTemp := 70
        correction := 1 } := by
  refine ⟨by norm_num, ?_⟩
  exact (claim_c7_radiator_formula 2000 75 65 20 (by norm_num)).2

/-- C10: on an empty room collection the building aggregate succeeds with an
empty per-room list and zero totals, for every params value, validated or
not, because validation only ever runs per room. -/
theorem claim_c10_empty_building (params : CalculationParams) :
    calculateBuildingHeatLoss [] params =
      Except.ok { rooms := [], totalHeatLoss := 0, totalDesignLoad := 0 } := by
  simp only [calculateBuildingHeatLoss, mapResults, List.foldl_nil, round_zero]

/-- C2: for every Room and CalculationParams that pass validation,
calculateRoomHeatLoss returns exactly the spec formulas: the rounded
transmission loss, the rounded ventilation loss, the rounded sum of the
unrounded losses, the rounded design load (unrounded total times 1.15),
the fixed safety factor 1.15 and the fixed method label. -/
theorem claim_c2_room_formulas (room : Room) (params : CalculationParams)
    (h : ValidInputs room params) :
    calculateRoomHeatLoss room params = Except.ok
      { transmissionLoss := round (specTransmissionLoss room params) 2
        ventilationLoss := round (specVentilationLoss room params) 2
        totalHeatLoss :=
          round (specTransmissionLoss room params + specVentilationLoss room params) 2
        designHeatLoad :=
          round ((specTransmissionLoss room params + specVentilationLoss room params) * 1.15) 2
        safetyFactor := 1.15
        method := "EN_12831" } := by
  have hTL : calculateTransmissionLoss room params
      (params.indoorTemp - params.outdoorTemp) = specTransmissionLoss room params := by
    unfold calculateTransmissionLoss specTransmissionLoss
    ring
  have hVL : calculateVentilationLoss room params
      (params.indoorTemp - params.outdoorTemp) = specVentilationLoss room params := by
    unfold calculateVentilationLoss specVentilationLoss AIR_DENSITY SPECIFIC_HEAT_AIR
    ring
  rw [roomHeatLoss_ok room params h]
  simp only [computeResult, SAFETY_FACTOR, hTL, hVL]

/-- Witness for C2 at the sample room and params. -/
theorem claim_c2_room_formulas_witness :
    ValidInputs roomA sampleParams ∧
    calculateRoomHeatLoss roomA sampleParams = Except.ok
      { transmissionLoss := round (specTransmissionLoss roomA sampleParams) 2
        ventilationLoss := round (specVentilationLoss roomA sampleParams) 2
        totalHeatLoss :=
          round (specTransmissionLoss roomA sampleParams + specVentilationLoss roomA sampleParams) 2
        designHeatLoad :=
          round ((specTransmissionLoss roomA sampleParams +
            specVentilationLoss roomA sampleParams) * 1.15) 2
        safetyFactor := 1.15
        method := "EN_12831" } := by
  have hv : ValidInputs roomA sampleParams := by
    unfold ValidInputs roomA sampleParams
    norm_num
  exact ⟨hv, claim_c2_room_formulas roomA sampleParams hv⟩

/-- C3: calculateRoomHeatLoss succeeds exactly when the ten validation
rules hold (so exteriorWalls outside 0..4 and oversized windowArea are
not rejected and the unclamped result is computed), and the listed
violations reject, area = 0 with its specific message. -/
theorem claim_c3_validation (room : Room) (params : CalculationParams) :
    ((∃ result, calculateRoomHeatLoss room params = Except.ok result) ↔
      ValidInputs room params) ∧
    (ValidInputs room params →
      calculateRoomHeatLoss room params = Except.ok (computeResult room params)) ∧
    (room.area = 0 →
      calculateRoomHeatLoss room params = Except.error "Room area must be greater than 0") ∧
    (params.indoorTemp = params.outdoorTemp →
      ∃ msg, calculateRoomHeatLoss room params = Except.error msg) ∧
    (params.outdoorTemp = 16 →
      ∃ msg, calculateRoomHeatLoss room params = Except.error msg) ∧
    (params.wallUValue = 0 →
      ∃ msg, calculateRoomHeatLoss room params = Except.error msg) ∧
    (params.airChangeRate = 11 →
      ∃ msg, calculateRoomHeatLoss room params = Except.error msg) := by
  refine ⟨roomHeatLoss_ok_iff room params, roomHeatLoss_ok room params, ?_, ?_, ?_, ?_, ?_⟩
  · intro hA
    unfold calculateRoomHeatLoss validateInputs
    rw [if_pos hA.le]
  · intro hEq
    apply roomHeatLoss_error
    intro hval
    obtain ⟨_, _, _, _, _, _, _, hio, _⟩ := hval
    rw [hEq] at hio
    exact lt_irrefl _ hio
  · intro h16
    apply roomHeatLoss_error
    intro hval
    obtain ⟨_, _, _, _, hmax, _⟩ := hval
    rw [h16] at hmax
    norm_num at hmax
  · intro hw0
    apply roomHeatLoss_error
    intro hval
    obtain ⟨_, _, _, _, _, _, _, _, ⟨hwpos, _⟩, _⟩ := hval
    rw [hw0] at hwpos
    exact lt_irrefl _ hwpos
  · intro hach
    apply roomHeatLoss_error
    intro hval
    obtain ⟨_, _, _, _, _, _, _, _, _, _, _, _, _, hmax⟩ := hval
    rw [hach] at hmax
    norm_num at hmax

/-- Witness for C3 at a zero-area room (rejects with the area message) and
at a valid room with the unclamped result. -/
theorem claim_c3_validation_witness :
    zeroAreaRoom.area = 0 ∧
    calculateRoomHeatLoss zeroAreaRoom sampleParams =
      Except.error "Room area must be greater than 0" ∧
    ValidInputs roomA sampleParams ∧
    calculateRoomHeatLoss roomA sampleParams = Except.ok (computeResult roomA sampleParams) := by
  have hv : ValidInputs roomA sampleParams := by
    unfold ValidInputs roomA sampleParams
    norm_num
  exact ⟨rfl, (claim_c3_validation zeroAreaRoom sampleParams).2.2.1 rfl, hv,
    (claim_c3_validation roomA sampleParams).2.1 hv⟩

/-- C9: two rooms that agree on area, volume, ceilingHeight, exteriorWalls
and windowArea (so may differ in id, name, doorCount and targetTemp) are
validated identically and produce the identical result record, whatever
the params. -/
theorem claim_c9_noninterference (r1 r2 : Room) (params : CalculationParams)
    (ha : r1.area = r2.area) (hv : r1.volume = r2.volume)
    (hh : r1.ceilingHeight = r2.ceilingHeight)
    (he : r1.exteriorWalls = r2.exteriorWalls)
    (hw : r1.windowArea = r2.windowArea) :
    validateInputs r1 params = validateInputs r2 params ∧
    computeResult r1 params = computeResult r2 params ∧
    calculateRoomHeatLoss r1 params = calculateRoomHeatLoss r2 params := by
  have h1 : validateInputs r1 params = validateInputs r2 params := by
    unfold validateInputs
    rw [ha, hv, hh]
  have h2 : computeResult r1 params = computeResult r2 params := by
    unfold computeResult calculateTransmissionLoss calculateVentilationLoss
    rw [ha, hv, hh, he, hw]
  refine ⟨h1, h2, ?_⟩
  unfold calculateRoomHeatLoss
  rw [h1, h2]

/-- Witness for C9: roomA and roomB differ only in id, name, doorCount and
targetTemp and give the same outcome. -/
theorem claim_c9_noninterference_witness :
    roomA.area = roomB.area ∧ roomA.volume = roomB.volume ∧
    roomA.ceilingHeight = roomB.ceilingHeight ∧
    roomA.exteriorWalls = roomB.exteriorWalls ∧
    roomA.windowArea = roomB.windowArea ∧
    roomA.doorCount ≠ roomB.doorCount ∧ roomA.targetTemp ≠ roomB.targetTemp ∧
    calculateRoomHeatLoss roomA sampleParams = calculateRoomHeatLoss roomB sampleParams := by
  refine ⟨rfl, rfl, rfl, rfl, rfl, by norm_num [roomA, roomB], by norm_num [roomA, roomB], ?_⟩
  exact (claim_c9_noninterference roomA roomB sampleParams rfl rfl rfl rfl rfl).2.2

/-- C5: if any room of the collection fails validation, the whole building
call rejects with a validation error of one of the rooms, and no aggregate
value (per-room list or totals) is returned. -/
theorem claim_c5_fail_fast (rooms : List Room) (params : CalculationParams)
    (h : ∃ room ∈ rooms, ¬ ValidInputs room params) :
    ∃ msg, calculateBuildingHeatLoss rooms params = Except.error msg ∧
      ∃ room ∈ rooms, calculateRoomHeatLoss room params = Except.error msg := by
  obtain ⟨msg, hmr, hroom⟩ := mapResults_error rooms params h
  exact ⟨msg, by unfold calculateBuildingHeatLoss; rw [hmr], hroom⟩

/-- Witness for C5: a building with one valid and one invalid room rejects. -/
theorem claim_c5_fail_fast_witness :
    (¬ ValidInputs zeroAreaRoom sampleParams) ∧
    ∃ msg, calculateBuildingHeatLoss [roomA, zeroAreaRoom] sampleParams = Except.error msg ∧
      ∃ room ∈ [roomA, zeroAreaRoom],
        calculateRoomHeatLoss room sampleParams = Except.error msg := by
  have hinv : ¬ ValidInputs zeroAreaRoom sampleParams := by
    intro hval
    have h0 := hval.1
    norm_num [zeroAreaRoom] at h0
  exact ⟨hinv, claim_c5_fail_fast [roomA, zeroAreaRoom] sampleParams
    ⟨zeroAreaRoom, by simp, hinv⟩⟩

/-- C6: on all-valid rooms the building call returns per room exactly the
independent calculateRoomHeatLoss result, the totals are the rounded sums of
the per-room rounded fields, and the totals are invariant under any
permutation of the room list. -/
theorem claim_c6_aggregate (rooms rooms2 : List Room) (params : CalculationParams)
    (hv : ∀ room ∈ rooms, ValidInputs room params)
    (hperm : List.Perm rooms rooms2) :
    calculateBuildingHeatLoss rooms params = Except.ok
      { rooms := rooms.map fun room => { roomId := room.id, result := computeResult room params }
        totalHeatLoss :=
          round ((rooms.map fun room => (computeResult room params).totalHeatLoss).sum) 2
        totalDesignLoad :=
          round ((rooms.map fun room => (computeResult room params).designHeatLoad).sum) 2 } ∧
    (∀ room ∈ rooms, calculateRoomHeatLoss room params = Except.ok (computeResult room params)) ∧
    ∃ b b2, calculateBuildingHeatLoss rooms params = Except.ok b ∧
      calculateBuildingHeatLoss rooms2 params = Except.ok b2 ∧
      b.totalHeatLoss = b2.totalHeatLoss ∧ b.totalDesignLoad = b2.totalDesignLoad := by
  have hv2 : ∀ room ∈ rooms2, ValidInputs room params :=
    fun room hm => hv room (hperm.mem_iff.mpr hm)
  have hsum1 : (rooms.map fun room => (computeResult room params).totalHeatLoss).sum =
      (rooms2.map fun room => (computeResult room params).totalHeatLoss).sum :=
    (hperm.map fun room => (computeResult room params).totalHeatLoss).sum_eq
  have hsum2 : (rooms.map fun room => (computeResult room params).designHeatLoad).sum =
      (rooms2.map fun room => (computeResult room params).designHeatLoad).sum :=
    (hperm.map fun room => (computeResult room params).designHeatLoad).sum_eq
  refine ⟨building_ok rooms params hv,
    fun room hm => roomHeatLoss_ok room params (hv room hm),
    _, _, building_ok rooms params hv, building_ok rooms2 params hv2, ?_, ?_⟩
  · rw [hsum1]
  · rw [hsum2]

/-- Witness for C6 with a two-room building and its swap. -/
theorem claim_c6_aggregate_witness :
    ValidInputs roomA sampleParams ∧ ValidInputs roomC sampleParams ∧
    calculateBuildingHeatLoss [roomA, roomC] sampleParams = Except.ok
      { rooms := [roomA, roomC].map fun room =>
          { roomId := room.id, result := computeResult room sampleParams }
        totalHeatLoss :=
          round (([roomA, roomC].map fun room =>
            (computeResult room sampleParams).totalHeatLoss).sum) 2
        totalDesignLoad :=
          round (([roomA, roomC].map fun room =>
            (computeResult room sampleParams).designHeatLoad).sum) 2 } := by
  have hvA : ValidInputs roomA sampleParams := by
    unfold ValidInputs roomA sampleParams
    norm_num
  have hvC : ValidInputs roomC sampleParams := by
    unfold ValidInputs roomC sampleParams
    norm_num
  have hv : ∀ room ∈ [roomA, roomC], ValidInputs room sampleParams := by
    intro room hm
    rcases List.mem_cons.mp hm with h1 | h1
    · rw [h1]; exact hvA
    · rw [List.mem_singleton.mp h1]; exact hvC
  exact ⟨hvA, hvC,
    (claim_c6_aggregate [roomA, roomC] [roomC, roomA] sampleParams hv
      (List.Perm.swap roomC roomA [])).1⟩

/-- C4 counterexample: monoRoom is valid, has positive area and positive
window area, and the two param sets are valid and differ only in
wallUValue (1 versus 2); yet the transmission loss is unchanged, because
with exteriorWalls = 0 the effective wall area is zero.  At the same
input the ventilation loss is also unchanged when the temperature
difference grows, because airChangeRate = 0 is valid.  So the claimed
strict monotonicity fails on valid inputs. -/
theorem claim_c4_counterexample :
    ValidInputs monoRoom monoParams1 ∧ ValidInputs monoRoom monoParams2 ∧
    0 < monoRoom.area ∧ 0 < monoRoom.windowArea ∧
    monoParams1.wallUValue < monoParams2.wallUValue ∧
    monoParams2 = { monoParams1 with wallUValue := monoParams2.wallUValue } ∧
    calculateTransmissionLoss monoRoom monoParams1
        (monoParams1.indoorTemp - monoParams1.outdoorTemp) =
      calculateTransmissionLoss monoRoom monoParams2
        (monoParams2.indoorTemp - monoParams2.outdoorTemp) ∧
    calculateVentilationLoss monoRoom monoParams1
        (monoParams1.indoorTemp - monoParams1.outdoorTemp + 1) =
      calculateVentilationLoss monoRoom monoParams1
        (monoParams1.indoorTemp - monoParams1.outdoorTemp) := by
  refine ⟨by unfold ValidInputs monoRoom monoParams1; norm_num,
    by unfold ValidInputs monoRoom monoParams2; norm_num,
    by norm_num [monoRoom], by norm_num [monoRoom],
    by norm_num [monoParams1, monoParams2], rfl, ?_, ?_⟩
  · unfold calculateTransmissionLoss monoRoom monoParams1 monoParams2
    norm_num
  · unfold calculateVentilationLoss monoRoom monoParams1 AIR_DENSITY SPECIFIC_HEAT_AIR
    norm_num

/-- C4 as amended: for valid inputs with at least one exterior wall,
positive window area, positive modeled wall area and positive air change
rate, strictly increasing any single U-value strictly increases the
(unrounded) transmission loss, strictly increasing the air change rate
strictly increases the (unrounded) ventilation loss, and strictly
increasing the temperature difference strictly increases both losses. -/
theorem claim_c4_monotonicity (room : Room) (params : CalculationParams)
    (hval : ValidInputs room params)
    (hew : 0 < room.exteriorWalls)
    (hwin : 0 < room.windowArea)
    (hwa : 0 < 4 * Real.sqrt room.area * room.ceilingHeight - room.windowArea)
    (hach : 0 < params.airChangeRate)
    (u1 u2 : ℝ) (hu : u1 < u2) (d1 d2 : ℝ) (hd : d1 < d2) :
    calculateTransmissionLoss room { params with wallUValue := u1 }
        (params.indoorTemp - params.outdoorTemp) <
      calculateTransmissionLoss room { params with wallUValue := u2 }
        (params.indoorTemp - params.outdoorTemp) ∧
    calculateTransmissionLoss room { params with windowUValue := u1 }
        (params.indoorTemp - params.outdoorTemp) <
      calculateTransmissionLoss room { params with windowUValue := u2 }
        (params.indoorTemp - params.outdoorTemp) ∧
    calculateTransmissionLoss room { params with floorUValue := u1 }
        (params.indoorTemp - params.outdoorTemp) <
      calculateTransmissionLoss room { params with floorUValue := u2 }
        (params.indoorTemp - params.outdoorTemp) ∧
    calculateTransmissionLoss room { params with ceilingUValue := u1 }
        (params.indoorTemp - params.outdoorTemp) <
      calculateTransmissionLoss room { params with ceilingUValue := u2 }
        (params.indoorTemp - params.outdoorTemp) ∧
    calculateVentilationLoss room { params with airChangeRate := u1 }
        (params.indoorTemp - params.outdoorTemp) <
      calculateVentilationLoss room { params with airChangeRate := u2 }
        (params.indoorTemp - params.outdoorTemp) ∧
    calculateTransmissionLoss room params d1 < calculateTransmissionLoss room params d2 ∧
    calculateVentilationLoss room params d1 < calculateVentilationLoss room params d2 := by
  obtain ⟨harea, hvol, hhgt, _, _, _, _, hio, ⟨hwU, _⟩, ⟨hwinU, _⟩, ⟨hfU, _⟩, ⟨hcU, _⟩, _⟩ :=
    hval
  have hdT : 0 < params.indoorTemp - params.outdoorTemp := sub_pos.mpr hio
  have hu21 : 0 < u2 - u1 := sub_pos.mpr hu
  have hd21 : 0 < d2 - d1 := sub_pos.mpr hd
  have hq : (0 : ℝ) < 4 := by norm_num
  have hEffWall : 0 < (4 * Real.sqrt room.area * room.ceilingHeight - room.windowArea) *
      (room.exteriorWalls / 4) := mul_pos hwa (div_pos hew hq)
  have hEffWin : 0 < room.windowArea * (room.exteriorWalls / 4) :=
    mul_pos hwin (div_pos hew hq)
  refine ⟨?_, ?_, ?_, ?_, ?_, ?_, ?_⟩
  · have key : calculateTransmissionLoss room { params with wallUValue := u2 }
          (params.indoorTemp - params.outdoorTemp) -
        calculateTransmissionLoss room { params with wallUValue := u1 }
          (params.indoorTemp - params.outdoorTemp) =
        (u2 - u1) * ((4 * Real.sqrt room.area * room.ceilingHeight - room.windowArea) *
          (room.exteriorWalls / 4)) * (params.indoorTemp - params.outdoorTemp) := by
      unfold calculateTransmissionLoss
      dsimp only
      ring
    have hpos : (0 : ℝ) < (u2 - u1) *
        ((4 * Real.sqrt room.area * room.ceilingHeight - room.windowArea) *
          (room.exteriorWalls / 4)) * (params.indoorTemp - params.outdoorTemp) :=
      mul_pos (mul_pos hu21 hEffWall) hdT
    rw [← key] at hpos
    exact sub_pos.mp hpos
  · have key : calculateTransmissionLoss room { params with windowUValue := u2 }
          (params.indoorTemp - params.outdoorTemp) -
        calculateTransmissionLoss room { params with windowUValue := u1 }
          (params.indoorTemp - params.outdoorTemp) =
        (u2 - u1) * (room.windowArea * (room.exteriorWalls / 4)) *
          (params.indoorTemp - params.outdoorTemp) := by
      unfold calculateTransmissionLoss
      dsimp only
      ring
    have hpos : (0 : ℝ) < (u2 - u1) * (room.windowArea * (room.exteriorWalls / 4)) *
        (params.indoorTemp - params.outdoorTemp) :=
      mul_pos (mul_pos hu21 hEffWin) hdT
    rw [← key] at hpos
    exact sub_pos.mp hpos
  · have key : calculateTransmissionLoss room { params with floorUValue := u2 }
          (params.indoorTemp - params.outdoorTemp) -
        calculateTransmissionLoss room { params with floorUValue := u1 }
          (params.indoorTemp - params.outdoorTemp) =
        (u2 - u1) * (room.area * 0.5) * (params.indoorTemp - params.outdoorTemp) := by
      unfold calculateTransmissionLoss
      dsimp only
      ring
    have hpos : (0 : ℝ) < (u2 - u1) * (room.area * 0.5) *
        (params.indoorTemp - params.outdoorTemp) :=
      mul_pos (mul_pos hu21 (mul_pos harea (by norm_num))) hdT
    rw [← key] at hpos
    exact sub_pos.mp hpos
  · have key : calculateTransmissionLoss room { params with ceilingUValue := u2 }
          (params.indoorTemp - params.outdoorTemp) -
        calculateTransmissionLoss room { params with ceilingUValue := u1 }
          (params.indoorTemp - params.outdoorTemp) =
        (u2 - u1) * room.area * (params.indoorTemp - params.outdoorTemp) := by
      unfold calculateTransmissionLoss
      dsimp only
      ring
    have hpos : (0 : ℝ) < (u2 - u1) * room.area *
        (params.indoorTemp - params.outdoorTemp) :=
      mul_pos (mul_pos hu21 harea) hdT
    rw [← key] at hpos
    exact sub_pos.mp hpos
  · have key : calculateVentilationLoss room { params with airChangeRate := u2 }
          (params.indoorTemp - params.outdoorTemp) -
        calculateVentilationLoss room { params with airChangeRate := u1 }
          (params.indoorTemp - params.outdoorTemp) =
        room.volume * (u2 - u1) * (params.indoorTemp - params.outdoorTemp) * 0.335 := by
      unfold calculateVentilationLoss AIR_DENSITY SPECIFIC_HEAT_AIR
      dsimp only
      ring
    have hpos : (0 : ℝ) < room.volume * (u2 - u1) *
        (params.indoorTemp - params.outdoorTemp) * 0.335 :=
      mul_pos (mul_pos (mul_pos hvol hu21) hdT) (by norm_num)
    rw [← key] at hpos
    exact sub_pos.mp hpos
  · have key : calculateTransmissionLoss room params d2 -
        calculateTransmissionLoss room params d1 =
        (params.wallUValue * ((4 * Real.sqrt room.area * room.ceilingHeight -
            room.windowArea) * (room.exteriorWalls / 4)) +
          params.windowUValue * (room.windowArea * (room.exteriorWalls / 4)) +
          params.floorUValue * (room.area * 0.5) +
          params.ceilingUValue * room.area) * (d2 - d1) := by
      unfold calculateTransmissionLoss
      ring
    have hcoef : (0 : ℝ) < params.wallUValue * ((4 * Real.sqrt room.area *
          room.ceilingHeight - room.windowArea) * (room.exteriorWalls / 4)) +
        params.windowUValue * (room.windowArea * (room.exteriorWalls / 4)) +
        params.floorUValue * (room.area * 0.5) +
        params.ceilingUValue * room.area := by
      have t1 := mul_pos hwU hEffWall
      have t2 := mul_pos hwinU hEffWin
      have t3 := mul_pos hfU (mul_pos harea (by norm_num : (0:ℝ) < 0.5))
      have t4 := mul_pos hcU harea
      linarith
    have hpos := mul_pos hcoef hd21
    rw [← key] at hpos
    exact sub_pos.mp hpos
  · have key : calculateVentilationLoss room params d2 -
        calculateVentilationLoss room params d1 =
        room.volume * params.airChangeRate * (d2 - d1) * 0.335 := by
      unfold calculateVentilationLoss AIR_DENSITY SPECIFIC_HEAT_AIR
      ring
    have hpos : (0 : ℝ) < room.volume * params.airChangeRate * (d2 - d1) * 0.335 :=
      mul_pos (mul_pos (mul_pos hvol hach) hd21) (by norm_num)
    rw [← key] at hpos
    exact sub_pos.mp hpos

/-- Witness for the amended C4 at roomA, sampleParams, U-values 1 and 2,
temperature differences 23 and 24. -/
theorem claim_c4_monotonicity_witness :
    ValidInputs roomA sampleParams ∧
    0 < roomA.exteriorWalls ∧ 0 < roomA.windowArea ∧
    0 < 4 * Real.sqrt roomA.area * roomA.ceilingHeight - roomA.windowArea ∧
    0 < sampleParams.airChangeRate ∧
    (calculateTransmissionLoss roomA { sampleParams with wallUValue := 1 }
        (sampleParams.indoorTemp - sampleParams.outdoorTemp) <
      calculateTransmissionLoss roomA { sampleParams with wallUValue := 2 }
        (sampleParams.indoorTemp - sampleParams.outdoorTemp) ∧
    calculateTransmissionLoss roomA { sampleParams with windowUValue := 1 }
        (sampleParams.indoorTemp - sampleParams.outdoorTemp) <
      calculateTransmissionLoss roomA { sampleParams with windowUValue := 2 }
        (sampleParams.indoorTemp - sampleParams.outdoorTemp) ∧
    calculateTransmissionLoss roomA { sampleParams with floorUValue := 1 }
        (sampleParams.indoorTemp - sampleParams.outdoorTemp) <
      calculateTransmissionLoss roomA { sampleParams with floorUValue := 2 }
        (sampleParams.indoorTemp - sampleParams.outdoorTemp) ∧
    calculateTransmissionLoss roomA { sampleParams with ceilingUValue := 1 }
        (sampleParams.indoorTemp - sampleParams.outdoorTemp) <
      calculateTransmissionLoss roomA { sampleParams with ceilingUValue := 2 }
        (sampleParams.indoorTemp - sampleParams.outdoorTemp) ∧
    calculateVentilationLoss roomA { sampleParams with airChangeRate := 1 }
        (sampleParams.indoorTemp - sampleParams.outdoorTemp) <
      calculateVentilationLoss roomA { sampleParams with airChangeRate := 2 }
        (sampleParams.indoorTemp - sampleParams.outdoorTemp) ∧
    calculateTransmissionLoss roomA sampleParams 23 <
      calculateTransmissionLoss roomA sampleParams 24 ∧
    calculateVentilationLoss roomA sampleParams 23 <
      calculateVentilationLoss roomA sampleParams 24) := by
  have hsq : Real.sqrt (16 : ℝ) = 4 := by
    rw [show (16 : ℝ) = 4 ^ 2 by norm_num, Real.sqrt_sq (by norm_num : (0:ℝ) ≤ 4)]
  have hv : ValidInputs roomA sampleParams := by
    unfold ValidInputs roomA sampleParams
    norm_num
  have hew : 0 < roomA.exteriorWalls := by norm_num [roomA]
  have hwin : 0 < roomA.windowArea := by norm_num [roomA]
  have hwa : 0 < 4 * Real.sqrt roomA.area * roomA.ceilingHeight - roomA.windowArea := by
    rw [show roomA.area = (16 : ℝ) from rfl, hsq]
    norm_num [roomA]
  have hach : 0 < sampleParams.airChangeRate := by norm_num [sampleParams]
  exact ⟨hv, hew, hwin, hwa, hach,
    claim_c4_monotonicity roomA sampleParams hv hew hwin hwa hach 1 2 (by norm_num)
      23 24 (by norm_num)⟩

/-- C8 counterexample, both conjuncts of the claim.  Tolerance: at
edgeRoom/edgeParams (valid inputs, unrounded total 31/230 W) the returned
fields are totalHeatLoss 0.13 and designHeatLoad 0.16, and
0.16 - 1.15 * 0.13 = 0.0105 exceeds one rounding unit (0.01) at 2 decimal
places.  Strictness: at edgeRoom/tinyParams (valid inputs, unrounded
total 0.046 W, positive, with positive rounded total 0.05) the returned
designHeatLoad equals the returned totalHeatLoss (both 0.05), so
designHeatLoad > totalHeatLoss fails although totalHeatLoss > 0 on either
the rounded or the unrounded reading. -/
theorem claim_c8_counterexample :
    (ValidInputs edgeRoom edgeParams ∧
    0 < (computeResult edgeRoom edgeParams).totalHeatLoss ∧
    ¬ (|(computeResult edgeRoom edgeParams).designHeatLoad -
          1.15 * (computeResult edgeRoom edgeParams).totalHeatLoss| ≤ 0.01)) ∧
    (ValidInputs edgeRoom tinyParams ∧
    0 < unroundedTotal edgeRoom tinyParams ∧
    0 < (computeResult edgeRoom tinyParams).totalHeatLoss ∧
    (computeResult edgeRoom tinyParams).designHeatLoad =
      (computeResult edgeRoom tinyParams).totalHeatLoss) := by
  have hval : ValidInputs edgeRoom edgeParams := by
    unfold ValidInputs edgeRoom edgeParams
    norm_num
  have hT : unroundedTotal edgeRoom edgeParams = 31 / 230 := by
    unfold unroundedTotal calculateTransmissionLoss calculateVentilationLoss
      AIR_DENSITY SPECIFIC_HEAT_AIR edgeRoom edgeParams
    norm_num
  have htot : (computeResult edgeRoom edgeParams).totalHeatLoss = 13 / 100 := by
    have hfield : (computeResult edgeRoom edgeParams).totalHeatLoss =
        round (unroundedTotal edgeRoom edgeParams) 2 := rfl
    rw [hfield, hT, round_eq_of (31 / 230 : ℝ) 2 13 (by norm_num) (by norm_num)]
    norm_num
  have hdes : (computeResult edgeRoom edgeParams).designHeatLoad = 16 / 100 := by
    have hfield : (computeResult edgeRoom edgeParams).designHeatLoad =
        round (unroundedTotal edgeRoom edgeParams * SAFETY_FACTOR) 2 := rfl
    have h155 : (31 / 230 : ℝ) * SAFETY_FACTOR = 31 / 200 := by
      unfold SAFETY_FACTOR
      norm_num
    rw [hfield, hT, h155, round_eq_of (31 / 200 : ℝ) 2 16 (by norm_num) (by norm_num)]
    norm_num
  have hval2 : ValidInputs edgeRoom tinyParams := by
    unfold ValidInputs edgeRoom tinyParams
    norm_num
  have hT2 : unroundedTotal edgeRoom tinyParams = 23 / 500 := by
    unfold unroundedTotal calculateTransmissionLoss calculateVentilationLoss
      AIR_DENSITY SPECIFIC_HEAT_AIR edgeRoom tinyParams
    norm_num
  have htot2 : (computeResult edgeRoom tinyParams).totalHeatLoss = 5 / 100 := by
    have hfield : (computeResult edgeRoom tinyParams).totalHeatLoss =
        round (unroundedTotal edgeRoom tinyParams) 2 := rfl
    rw [hfield, hT2, round_eq_of (23 / 500 : ℝ) 2 5 (by norm_num) (by norm_num)]
    norm_num
  have hdes2 : (computeResult edgeRoom tinyParams).designHeatLoad = 5 / 100 := by
    have hfield : (computeResult edgeRoom tinyParams).designHeatLoad =
        round (unroundedTotal edgeRoom tinyParams * SAFETY_FACTOR) 2 := rfl
    have h529 : (23 / 500 : ℝ) * SAFETY_FACTOR = 529 / 10000 := by
      unfold SAFETY_FACTOR
      norm_num
    rw [hfield, hT2, h529, round_eq_of (529 / 10000 : ℝ) 2 5 (by norm_num) (by norm_num)]
    norm_num
  refine ⟨⟨hval, ?_, ?_⟩, hval2, ?_, ?_, ?_⟩
  · rw [htot]
    norm_num
  · rw [htot, hdes]
    intro habs
    rw [abs_le] at habs
    obtain ⟨_, h2⟩ := habs
    norm_num at h2
  · rw [hT2]
    norm_num
  · rw [htot2]
    norm_num
  · rw [htot2, hdes2]

/-- C8 as amended: the returned rounded fields satisfy the design-load
relation to within 0.01075 (half a rounding unit for designHeatLoad plus
1.15 times half a rounding unit for totalHeatLoss), designHeatLoad is at
least totalHeatLoss whenever the unrounded total is nonnegative, and
strictly greater whenever the unrounded total exceeds 1/15 W. -/
theorem claim_c8_design_load (room : Room) (params : CalculationParams)
    (h : ValidInputs room params) :
    |(computeResult room params).designHeatLoad -
        1.15 * (computeResult room params).totalHeatLoss| ≤ 0.01075 ∧
    (0 ≤ unroundedTotal room params →
      (computeResult room params).totalHeatLoss ≤
        (computeResult room params).designHeatLoad) ∧
    (1 / 15 < unroundedTotal room params →
      (computeResult room params).totalHeatLoss <
        (computeResult room params).designHeatLoad) := by
  have hfield1 : (computeResult room params).totalHeatLoss =
      round (unroundedTotal room params) 2 := rfl
  have hfield2 : (computeResult room params).designHeatLoad =
      round (unroundedTotal room params * SAFETY_FACTOR) 2 := rfl
  have hSF : SAFETY_FACTOR = (1.15 : ℝ) := rfl
  rw [hfield1, hfield2, hSF]
  set T := unroundedTotal room params
  refine ⟨?_, ?_, ?_⟩
  · have h1 := abs_round_sub (T * 1.15) 2
    have h2 := abs_round_sub T 2
    have hden : (1 : ℝ) / (2 * (10 : ℝ) ^ 2) = 1 / 200 := by norm_num
    rw [hden] at h1 h2
    rw [abs_le] at h1 h2 ⊢
    constructor <;> linarith [h1.1, h1.2, h2.1, h2.2]
  · intro h0
    exact round_le_round T (T * 1.15) 2 (by nlinarith)
  · intro h15
    unfold round
    have h100 : ((10 : ℝ) ^ 2) = (100 : ℝ) := by norm_num
    rw [h100]
    have ha : T * 1.15 * 100 + 1 / 2 < ((⌊T * 1.15 * 100 + 1 / 2⌋ : ℤ) : ℝ) + 1 :=
      Int.lt_floor_add_one _
    have hb : ((⌊T * 100 + 1 / 2⌋ : ℤ) : ℝ) ≤ T * 100 + 1 / 2 := Int.floor_le _
    have key : ((⌊T * 100 + 1 / 2⌋ : ℤ) : ℝ) < ((⌊T * 1.15 * 100 + 1 / 2⌋ : ℤ) : ℝ) := by
      linarith
    linarith

/-- Witness for the amended C8 at the sample inputs, whose unrounded total
is 486.105 W. -/
theorem claim_c8_design_load_witness :
    ValidInputs roomA sampleParams ∧
    0 ≤ unroundedTotal roomA sampleParams ∧
    1 / 15 < unroundedTotal roomA sampleParams ∧
    |(computeResult roomA sampleParams).designHeatLoad -
        1.15 * (computeResult roomA sampleParams).totalHeatLoss| ≤ 0.01075 ∧
    (computeResult roomA sampleParams).totalHeatLoss ≤
      (computeResult roomA sampleParams).designHeatLoad ∧
    (computeResult roomA sampleParams).totalHeatLoss <
      (computeResult roomA sampleParams).designHeatLoad := by
  have hsq : Real.sqrt (16 : ℝ) = 4 := by
    rw [show (16 : ℝ) = 4 ^ 2 by norm_num, Real.sqrt_sq (by norm_num : (0:ℝ) ≤ 4)]
  have hv : ValidInputs roomA sampleParams := by
    unfold ValidInputs roomA sampleParams
    norm_num
  have hT : unroundedTotal roomA sampleParams = 486.105 := by
    unfold unroundedTotal calculateTransmissionLoss calculateVentilationLoss
      AIR_DENSITY SPECIFIC_HEAT_AIR roomA sampleParams
    norm_num [hsq]
  have h0 : 0 ≤ unroundedTotal roomA sampleParams := by
    rw [hT]
    norm_num
  have h15 : 1 / 15 < unroundedTotal roomA sampleParams := by
    rw [hT]
    norm_num
  obtain ⟨p1, p2, p3⟩ := claim_c8_design_load roomA sampleParams hv
  exact ⟨hv, h0, h15, p1, p2 h0, p3 h15⟩

end HeatLossService

end
